import Mathlib

/-!
Shallow embedding of `src/main.py` of the DAP library cleaner.

The decision core of the program is three pure pieces:
* `classify_file` (main.py lines 69-95): maps a file name to a
  `(bucket, reason)` pair of strings;
* `file_health_checks` (main.py lines 98-131): maps a file (its path
  relative to the scan root and the outcome of `stat`) to an ordered list
  of reason strings;
* the deletion selection in `main` (main.py lines 217-229): maps the
  scan buckets and a menu choice to the list of paths to delete.

Python details modelled explicitly:
* `pathlib.PurePath.suffix` / `.stem` are computed from `name.rfind('.')`
  as in CPython: `lastDotIdx` models `rfind`, `pySuffix`/`pyStem` the
  properties.
* `str.lower` is modelled by `pyLower`, ASCII case folding over the
  characters; all the strings the rule tables compare against are ASCII,
  so membership tests agree on ASCII input (Unicode one-off case
  foldings such as the Kelvin sign are out of scope).
* `str.strip` is modelled by `pyStrip` over the ASCII whitespace set
  (Unicode space variants are out of scope).
* a `stat` call that may raise is modelled by an `Option Nat` size:
  `none` is a raised exception, `some n` a size of `n` bytes.
-/

namespace DapCleaner

/-- main.py line 22: `AUDIO_EXTS`. -/
def AUDIO_EXTS : List String :=
  [".flac", ".mp3", ".wav", ".aac", ".m4a", ".ogg", ".opus", ".wma", ".ape", ".aiff"]

/-- main.py line 27: `IMAGE_EXTS`. -/
def IMAGE_EXTS : List String := [".jpg", ".jpeg", ".png", ".bmp", ".webp"]

/-- main.py line 30: `JUNK_EXTS`. -/
def JUNK_EXTS : List String :=
  [".m3u", ".m3u8", ".pls", ".wpl", ".xspf",
   ".db", ".ini", ".log", ".tmp", ".bak",
   ".sfk", ".asd", ".pkf", ".xml", ".json"]

/-- main.py line 37: `POTENTIALLY_PROBLEMATIC_EXTS`. -/
def POTENTIALLY_PROBLEMATIC_EXTS : List String :=
  [".cue", ".nfo", ".txt", ".rtf", ".pdf", ".md"]

/-- main.py line 39: `JUNK_FILENAMES`. -/
def JUNK_FILENAMES : List String := ["thumbs.db", "desktop.ini", ".ds_store"]

/-- main.py line 40: `JUNK_DIRNAMES`. -/
def JUNK_DIRNAMES : List String := [".spotlight-v100", ".trashes", "__macosx"]

/-- main.py line 42: `APPLEDOUBLE_PREFIX`. -/
def APPLEDOUBLE_PREFIX : String := "._"

/-- main.py line 45: `DEPTH_LIMIT`. -/
def DEPTH_LIMIT : Nat := 6

/-- main.py line 46: `REL_PATH_LEN_LIMIT`. -/
def REL_PATH_LEN_LIMIT : Nat := 180

/-- main.py line 47: `MAX_FILENAME_LEN`. -/
def MAX_FILENAME_LEN : Nat := 120

/-- main.py line 53: `PREFERRED_COVER_NAMES`. -/
def PREFERRED_COVER_NAMES : List String := ["cover", "folder", "front", "album"]

/-- main.py line 51: one character matched by `BAD_CHARS_PATTERN`,
the Windows-invalid symbols and the ASCII control range 0x00-0x1F. -/
def isBadChar (c : Char) : Bool :=
  c ∈ ['<', '>', ':', '"', '/', '\\', '|', '?', '*'] || c.val ≤ 0x1F

/-- CPython `str.rfind('.')` on a character list: the index of the last
`'.'`, or `none` where Python returns `-1`. -/
def lastDotIdx : List Char → Option Nat
  | [] => none
  | c :: cs =>
    match lastDotIdx cs with
    | some i => some (i + 1)
    | none => if c = '.' then some 0 else none

/-- CPython `pathlib.PurePath.suffix` of a final path component:
`name[i:]` when `0 < i < len(name) - 1` for `i = name.rfind('.')`,
else the empty string. -/
def pySuffix (name : String) : String :=
  match lastDotIdx name.data with
  | some i =>
    if 0 < i ∧ i < name.data.length - 1 then String.mk (name.data.drop i) else ""
  | none => ""

/-- CPython `pathlib.PurePath.stem` of a final path component:
`name[:i]` when `0 < i < len(name) - 1` for `i = name.rfind('.')`,
else the whole name. -/
def pyStem (name : String) : String :=
  match lastDotIdx name.data with
  | some i =>
    if 0 < i ∧ i < name.data.length - 1 then String.mk (name.data.take i) else name
  | none => name

/-- Python's substring test `sub in s` on character lists: some
contiguous run of `l` equals `sub`. -/
def listContainsSub (sub : List Char) : List Char → Bool
  | [] => decide (sub = [])
  | c :: cs => sub.isPrefixOf (c :: cs) || listContainsSub sub cs

/-- Python's substring test `sub in s` for strings. -/
def strContains (s sub : String) : Bool := listContainsSub sub.data s.data

/-- Python's `s.startswith(pre)`: character-level prefix test. -/
def pyStartswith (s pre : String) : Bool := pre.data.isPrefixOf s.data

/-- Python's `s.lower()` restricted to ASCII case folding (every string
the rule tables compare against is ASCII). -/
def pyLower (s : String) : String := String.mk (s.data.map Char.toLower)

/-- The whitespace characters stripped by Python's `str.strip()`
(ASCII range; Unicode space variants are out of scope). -/
def pyIsSpace (c : Char) : Bool := c ∈ [' ', '\t', '\n', '\x0b', '\x0c', '\r']

/-- Python's `s.strip()`: drop whitespace from both ends. -/
def pyStrip (s : String) : String :=
  String.mk (((s.data.dropWhile pyIsSpace).reverse.dropWhile pyIsSpace).reverse)

/-- main.py lines 69-95: `classify_file`.  The input is `p.name`, the
final component of the path; `p.suffix` and `p.stem` are computed from
it as pathlib does.  Returns the `(bucket, reason)` pair. -/
def classify_file (name : String) : String × String :=
  let name_lower := pyLower name
  let ext_lower := pyLower (pySuffix name)
  if pyStartswith name APPLEDOUBLE_PREFIX then
    ("junk", "macOS AppleDouble sidecar (._*)")
  else if name_lower ∈ JUNK_FILENAMES then
    ("junk", "junk metadata file (" ++ name ++ ")")
  else if ext_lower ∈ AUDIO_EXTS then
    ("allowed", "audio file")
  else if ext_lower ∈ IMAGE_EXTS then
    let stem := pyLower (pyStem name)
    if stem ∉ PREFERRED_COVER_NAMES ∧ strContains stem "cover" = false
        ∧ strContains stem "folder" = false then
      ("maybe", "image file (artwork) but name not cover/folder/front (album art pickup may suffer)")
    else
      ("allowed", "cover art image")
  else if ext_lower ∈ JUNK_EXTS then
    ("junk", "junk sidecar/playlist/db/log (" ++ ext_lower ++ ")")
  else if ext_lower ∈ POTENTIALLY_PROBLEMATIC_EXTS then
    ("maybe", "non-audio sidecar (" ++ ext_lower ++ ") — sometimes confuses DAP scans")
  else
    ("unknown", "unknown file type (" ++ (if ext_lower = "" then "no extension" else ext_lower) ++ ")")

example : classify_file "._cover.jpg" = ("junk", "macOS AppleDouble sidecar (._*)") := by decide

example : (classify_file "AlbumArt.png").1 = "maybe" := by decide

example : classify_file "Track 01.flac" = ("allowed", "audio file") := by decide

example : classify_file "playlist.m3u" = ("junk", "junk sidecar/playlist/db/log (.m3u)") := by decide

example : classify_file ".flac" = ("unknown", "unknown file type (no extension)") := by decide

example : classify_file ".ds_store" = ("junk", "junk metadata file (.ds_store)") := by decide

example : classify_file "cover.jpg" = ("allowed", "cover art image") := by decide

/-- The facts about one file that `file_health_checks` (main.py lines
98-131) consumes: `parts` is `p.relative_to(root).parts` and `statSize`
the outcome of `p.stat().st_size` (`none` models a raised exception). -/
structure FileInfo where
  parts : List String
  statSize : Option Nat

/-- `str(rel)`: the relative path joined with the separator. -/
def FileInfo.relStr (f : FileInfo) : String := String.intercalate "/" f.parts

/-- `p.name`: the final component of the path. -/
def FileInfo.fname (f : FileInfo) : String := f.parts.getLastD ""

/-- main.py line 66: `has_non_ascii`. -/
def has_non_ascii (s : String) : Bool := s.data.any (fun c => c.val > 127)

/-- main.py line 116: `BAD_CHARS_PATTERN.search(p.name)` as a Bool. -/
def hasBadChar (name : String) : Bool := name.data.any isBadChar

/-- main.py lines 104-105: the depth check alone. -/
def depth_check (f : FileInfo) : List String :=
  if f.parts.length > DEPTH_LIMIT then
    ["deep folder nesting (depth=" ++ (toString f.parts.length ++ (", limit=" ++ (toString DEPTH_LIMIT ++ ")")))]
  else []

/-- main.py lines 107-108: the relative-path-length check alone. -/
def rel_len_check (f : FileInfo) : List String :=
  if f.relStr.length > REL_PATH_LEN_LIMIT then
    ["long relative path (" ++ (toString f.relStr.length ++ (" chars, limit=" ++ (toString REL_PATH_LEN_LIMIT ++ ")")))]
  else []

/-- main.py lines 110-111: the filename-length check alone. -/
def name_len_check (f : FileInfo) : List String :=
  if f.fname.length > MAX_FILENAME_LEN then
    ["very long filename (" ++ (toString f.fname.length ++ (" chars, limit=" ++ (toString MAX_FILENAME_LEN ++ ")")))]
  else []

/-- main.py lines 113-114: the non-ASCII check alone. -/
def ascii_check (f : FileInfo) : List String :=
  if has_non_ascii f.relStr then
    ["contains non-ASCII characters (possible emojis/unicode)"]
  else []

/-- main.py lines 116-117: the hostile-character check alone. -/
def badchar_check (f : FileInfo) : List String :=
  if hasBadChar f.fname then
    ["filename contains characters that can break devices (<>:\"/\\|?* or control chars)"]
  else []

/-- main.py lines 119-120: the leading/trailing-whitespace check alone. -/
def strip_check (f : FileInfo) : List String :=
  if f.fname ≠ pyStrip f.fname then
    ["filename has leading/trailing spaces"]
  else []

/-- main.py lines 122-123: the double-space check alone. -/
def dblspace_check (f : FileInfo) : List String :=
  if strContains f.fname "  " then
    ["filename contains double spaces"]
  else []

/-- main.py lines 125-129: the zero-byte/stat check alone. -/
def stat_check (f : FileInfo) : List String :=
  match f.statSize with
  | some n => if n = 0 then ["zero-byte file"] else []
  | none => ["could not stat file (permissions/corruption)"]

/-- main.py lines 98-131: `file_health_checks`, mirroring the imperative
accumulation into `reasons` step by step. -/
def file_health_checks (f : FileInfo) : List String :=
  let rel_str := f.relStr
  let name := f.fname
  let depth := f.parts.length
  let reasons : List String := []
  let reasons := if depth > DEPTH_LIMIT then
    reasons ++ ["deep folder nesting (depth=" ++ (toString depth ++ (", limit=" ++ (toString DEPTH_LIMIT ++ ")")))]
    else reasons
  let reasons := if rel_str.length > REL_PATH_LEN_LIMIT then
    reasons ++ ["long relative path (" ++ (toString rel_str.length ++ (" chars, limit=" ++ (toString REL_PATH_LEN_LIMIT ++ ")")))]
    else reasons
  let reasons := if name.length > MAX_FILENAME_LEN then
    reasons ++ ["very long filename (" ++ (toString name.length ++ (" chars, limit=" ++ (toString MAX_FILENAME_LEN ++ ")")))]
    else reasons
  let reasons := if has_non_ascii rel_str then
    reasons ++ ["contains non-ASCII characters (possible emojis/unicode)"]
    else reasons
  let reasons := if hasBadChar name then
    reasons ++ ["filename contains characters that can break devices (<>:\"/\\|?* or control chars)"]
    else reasons
  let reasons := if name ≠ pyStrip name then
    reasons ++ ["filename has leading/trailing spaces"]
    else reasons
  let reasons := if strContains name "  " then
    reasons ++ ["filename contains double spaces"]
    else reasons
  let reasons := match f.statSize with
    | some n => if n = 0 then reasons ++ ["zero-byte file"] else reasons
    | none => reasons ++ ["could not stat file (permissions/corruption)"]
  reasons

example : file_health_checks ⟨["Track 01.flac"], some 1⟩ = [] := by decide

example : file_health_checks ⟨["a", "b", "c", "d", "e", "f", "bad  name.txt"], some 0⟩ =
    ["deep folder nesting (depth=7, limit=6)",
     "filename contains double spaces", "zero-byte file"] := by decide

example : file_health_checks ⟨["x.mp3"], none⟩ =
    ["could not stat file (permissions/corruption)"] := by decide

/-- Recognizes a path-length finding of main.py line 108: a reason
string beginning with "long relative path". -/
def isLongPathMsg (r : String) : Bool := "long relative path".data.isPrefixOf r.data

/-- The first seven health checks (all but the zero-byte/stat check) in
the documented order. -/
def pre_checks (f : FileInfo) : List String :=
  depth_check f ++ rel_len_check f ++ name_len_check f ++ ascii_check f
    ++ badchar_check f ++ strip_check f ++ dblspace_check f

/-- main.py lines 59-61: a `Finding`; the path is kept abstract as a
string. -/
structure Finding where
  path : String
  reason : String
deriving DecidableEq

/-- The aggregate the scan loop of `main` builds (main.py lines
165-181): the four category buckets, the health-issue findings and the
junk directories. -/
structure ScanResult where
  allowed : List Finding
  junk : List Finding
  maybe : List Finding
  unknown : List Finding
  issues : List Finding
  junk_dirs : List String

/-- The four valid menu choices of main.py lines 210-219: `1`
junk only, `2` junk+maybe, `3` junk+maybe+unknown, `4` report only. -/
inductive Aggressiveness
  | junkOnly
  | junkAndMaybe
  | junkMaybeAndUnknown
  | reportOnly
deriving DecidableEq

/-- main.py lines 217-229: the deletion selection of `main`.  Choice `4`
returns before building `delete_list` (empty plan); otherwise
`delete_list` starts from the junk bucket, choices `2` and `3` extend it
with the maybe bucket, and choice `3` with the unknown bucket. -/
def deletion_plan (s : ScanResult) (lvl : Aggressiveness) : List String :=
  if lvl = Aggressiveness.reportOnly then []
  else
    (s.junk.map Finding.path)
      ++ (if lvl = Aggressiveness.junkAndMaybe ∨ lvl = Aggressiveness.junkMaybeAndUnknown then
            s.maybe.map Finding.path else [])
      ++ (if lvl = Aggressiveness.junkMaybeAndUnknown then s.unknown.map Finding.path else [])

/-- A one-junk-file scan used as a concrete input by witnesses. -/
def exScan : ScanResult := ⟨[], [⟨"a/b.m3u", "junk"⟩], [], [], [], []⟩

/-- The condition of the image-extension rule of main.py line 85, on
the lowercased stem. -/
def nonStandardArtName (name : String) : Prop :=
  pyLower (pyStem name) ∉ PREFERRED_COVER_NAMES
    ∧ strContains (pyLower (pyStem name)) "cover" = false
    ∧ strContains (pyLower (pyStem name)) "folder" = false

instance (name : String) : Decidable (nonStandardArtName name) := by
  unfold nonStandardArtName; infer_instance

/-- C1: the deletion plan is monotone in the aggressiveness level: for
every ScanResult, the paths selected at JunkOnly are a subset of those
at JunkAndMaybe, which are a subset of those at JunkMaybeAndUnknown; at
ReportOnly the plan is empty. -/
theorem C1_plan_monotone (s : ScanResult) :
    deletion_plan s Aggressiveness.junkOnly ⊆ deletion_plan s Aggressiveness.junkAndMaybe
    ∧ deletion_plan s Aggressiveness.junkAndMaybe ⊆ deletion_plan s Aggressiveness.junkMaybeAndUnknown
    ∧ deletion_plan s Aggressiveness.reportOnly = [] := by
  refine ⟨?_, ?_, ?_⟩ <;> simp [deletion_plan, List.subset_append_left]

/-- C2: for every ScanResult and aggressiveness level, every path of
the deletion plan comes from the Junk, Maybe or Unknown bucket; a path
only in the Allowed bucket or only among the health issues is never
selected. -/
theorem C2_plan_only_junk_maybe_unknown (s : ScanResult) (lvl : Aggressiveness) (p : String)
    (h : p ∈ deletion_plan s lvl) :
    p ∈ s.junk.map Finding.path ∨ p ∈ s.maybe.map Finding.path ∨ p ∈ s.unknown.map Finding.path := by
  cases lvl <;> simp [deletion_plan, -List.mem_map] at h <;> tauto

/-- Witness for C2: a concrete plan membership resolved through the
theorem. -/
theorem C2_witness :
    "a/b.m3u" ∈ exScan.junk.map Finding.path ∨ "a/b.m3u" ∈ exScan.maybe.map Finding.path
    ∨ "a/b.m3u" ∈ exScan.unknown.map Finding.path :=
  C2_plan_only_junk_maybe_unknown exScan Aggressiveness.junkOnly "a/b.m3u" (by decide)

/-- C3: the classifier is a total function returning exactly one
`(bucket, reason)` pair whose bucket is one of the four categories. -/
theorem C3_classifier_total (name : String) :
    (classify_file name).1 ∈ ["allowed", "junk", "maybe", "unknown"] := by
  simp only [classify_file]
  repeat' split
  all_goals simp

/-- C4: every file whose name begins with the AppleDouble prefix `._`
is classified junk with the macOS-sidecar reason, regardless of its
extension (the prefix rule precedes the image-extension rule). -/
theorem C4_appledouble_junk (name : String)
    (h : pyStartswith name APPLEDOUBLE_PREFIX = true) :
    classify_file name = ("junk", "macOS AppleDouble sidecar (._*)") := by
  simp only [classify_file, h, if_true]

/-- Witness for C4: `._cover.jpg`, an AppleDouble sidecar that would
otherwise match the image-extension rule. -/
theorem C4_witness : classify_file "._cover.jpg" = ("junk", "macOS AppleDouble sidecar (._*)") :=
  C4_appledouble_junk "._cover.jpg" (by decide)

/-- C5: a file that reaches the image-extension rule is classified
maybe exactly when its lowercased stem is not a preferred cover-art
token and contains neither "cover" nor "folder", with the artwork
naming reason; otherwise it is allowed as cover art. -/
theorem C5_image_rule (name : String)
    (h1 : pyStartswith name APPLEDOUBLE_PREFIX = false)
    (h2 : pyLower name ∉ JUNK_FILENAMES)
    (h3 : pyLower (pySuffix name) ∉ AUDIO_EXTS)
    (h4 : pyLower (pySuffix name) ∈ IMAGE_EXTS) :
    ((classify_file name).1 = "maybe" ↔ nonStandardArtName name)
    ∧ (nonStandardArtName name →
        classify_file name =
          ("maybe", "image file (artwork) but name not cover/folder/front (album art pickup may suffer)"))
    ∧ (¬nonStandardArtName name → classify_file name = ("allowed", "cover art image")) := by
  have key : classify_file name =
      if nonStandardArtName name then
        ("maybe", "image file (artwork) but name not cover/folder/front (album art pickup may suffer)")
      else ("allowed", "cover art image") := by
    simp [classify_file, nonStandardArtName, h1, h2, h3, h4]
  by_cases hc : nonStandardArtName name
  · rw [key, if_pos hc]
    refine ⟨by simp [hc], fun _ => rfl, fun hn => absurd hc hn⟩
  · rw [key, if_neg hc]
    refine ⟨by simp [hc], fun hn => absurd hn hc, fun _ => rfl⟩

/-- Witness for C5: `AlbumArt.png` reaches the image rule, its stem
"albumart" is non-standard, so it is classified maybe with the artwork
reason. -/
theorem C5_witness :
    classify_file "AlbumArt.png" =
      ("maybe", "image file (artwork) but name not cover/folder/front (album art pickup may suffer)") :=
  (C5_image_rule "AlbumArt.png" (by decide) (by decide) (by decide) (by decide)).2.1 (by decide)

lemma append_ite_right (c : Prop) [Decidable c] (l m : List String) :
    (if c then l ++ m else l) = l ++ (if c then m else []) := by
  split <;> simp

lemma health_decomp (f : FileInfo) :
    file_health_checks f =
      depth_check f ++ rel_len_check f ++ name_len_check f ++ ascii_check f
        ++ badchar_check f ++ strip_check f ++ dblspace_check f ++ stat_check f := by
  obtain ⟨parts, statSize⟩ := f
  cases statSize with
  | none =>
    simp only [file_health_checks, depth_check, rel_len_check, name_len_check, ascii_check,
      badchar_check, strip_check, dblspace_check, stat_check]
    rw [append_ite_right, append_ite_right, append_ite_right, append_ite_right,
      append_ite_right, append_ite_right, append_ite_right]
    simp [List.append_assoc]
  | some n =>
    simp only [file_health_checks, depth_check, rel_len_check, name_len_check, ascii_check,
      badchar_check, strip_check, dblspace_check, stat_check]
    rw [append_ite_right, append_ite_right, append_ite_right, append_ite_right,
      append_ite_right, append_ite_right, append_ite_right, append_ite_right]
    simp [List.append_assoc]

/-- C6: the health checker is the concatenation, in the documented
order, of eight independent checks — each evaluated on the file alone,
so an earlier match never suppresses a later one. -/
theorem C6_health_check_order (f : FileInfo) :
    file_health_checks f =
      depth_check f ++ rel_len_check f ++ name_len_check f ++ ascii_check f
        ++ badchar_check f ++ strip_check f ++ dblspace_check f ++ stat_check f :=
  health_decomp f

lemma health_split (f : FileInfo) :
    file_health_checks f = pre_checks f ++ stat_check f := by
  rw [health_decomp]
  simp [pre_checks, List.append_assoc]

lemma isPrefixOf_false_of_head (c d : Char) (l m : List Char) (h : ¬ c = d) :
    List.isPrefixOf (c :: l) (d :: m) = false := by
  simp [List.isPrefixOf, h]

lemma data_append_cons (a x : String) (c : Char) (t : List Char) (h : a.data = c :: t) :
    (a ++ x).data = c :: (t ++ x.data) := by
  rw [String.data_append, h]
  rfl

lemma str_append_ne (a x b : String) (c d : Char) (ta tb : List Char)
    (ha : a.data = c :: ta) (hb : b.data = d :: tb) (h : ¬ c = d) :
    a ++ x ≠ b := by
  intro he
  have hd := congrArg String.data he
  rw [data_append_cons a x c ta ha, hb] at hd
  injection hd with h1 _
  exact h h1

lemma notLong_head (b x : String) (c : Char) (t : List Char)
    (hb : b.data = c :: t) (hc : ¬ c = 'l') :
    isLongPathMsg (b ++ x) = false := by
  unfold isLongPathMsg
  rw [data_append_cons b x c t hb,
    show "long relative path".data = 'l' :: "ong relative path".data from rfl]
  exact isPrefixOf_false_of_head _ _ _ _ (fun h => hc h.symm)

lemma notLong_deep (x : String) : isLongPathMsg ("deep folder nesting (depth=" ++ x) = false :=
  notLong_head _ x 'd' "eep folder nesting (depth=".data rfl (by decide)

lemma notLong_very (x : String) : isLongPathMsg ("very long filename (" ++ x) = false :=
  notLong_head _ x 'v' "ery long filename (".data rfl (by decide)

lemma long_pre (x : String) : isLongPathMsg ("long relative path (" ++ x) = true := by
  unfold isLongPathMsg
  rw [String.data_append,
    (by decide : "long relative path (".data = "long relative path".data ++ [' ', '(']),
    List.append_assoc, List.isPrefixOf_iff_prefix]
  exact List.prefix_append _ _

lemma stat_check_none (f : FileInfo) (h : f.statSize = none) :
    stat_check f = ["could not stat file (permissions/corruption)"] := by
  unfold stat_check
  rw [h]

lemma stat_check_zero (f : FileInfo) (h : f.statSize = some 0) :
    stat_check f = ["zero-byte file"] := by
  unfold stat_check
  rw [h]
  rfl

lemma stat_check_pos (f : FileInfo) (n : Nat) (hn : ¬ n = 0) (h : f.statSize = some n) :
    stat_check f = [] := by
  unfold stat_check
  rw [h]
  simp [hn]

lemma countP_long_depth (f : FileInfo) : (depth_check f).countP isLongPathMsg = 0 := by
  unfold depth_check
  split
  · simp [List.countP_cons, notLong_deep]
  · rfl

lemma countP_long_name_len (f : FileInfo) : (name_len_check f).countP isLongPathMsg = 0 := by
  unfold name_len_check
  split
  · simp [List.countP_cons, notLong_very]
  · rfl

lemma countP_long_ascii (f : FileInfo) : (ascii_check f).countP isLongPathMsg = 0 := by
  unfold ascii_check
  split
  · decide
  · rfl

lemma countP_long_badchar (f : FileInfo) : (badchar_check f).countP isLongPathMsg = 0 := by
  unfold badchar_check
  split
  · decide
  · rfl

lemma countP_long_strip (f : FileInfo) : (strip_check f).countP isLongPathMsg = 0 := by
  unfold strip_check
  split
  · decide
  · rfl

lemma countP_long_dbl (f : FileInfo) : (dblspace_check f).countP isLongPathMsg = 0 := by
  unfold dblspace_check
  split
  · decide
  · rfl

lemma countP_long_stat (f : FileInfo) : (stat_check f).countP isLongPathMsg = 0 := by
  rcases hn : f.statSize with _ | n
  · rw [stat_check_none f hn]
    decide
  · by_cases h0 : n = 0
    · rw [h0] at hn
      rw [stat_check_zero f hn]
      decide
    · rw [stat_check_pos f n h0 hn]
      rfl

/-- C7: a file whose relative path has exactly the 180-character limit
gets no path-length finding; one character over, exactly one. -/
theorem C7_path_length_boundary (f g : FileInfo)
    (hf : f.relStr.length = 180) (hg : g.relStr.length = 181) :
    (file_health_checks f).countP isLongPathMsg = 0
    ∧ (file_health_checks g).countP isLongPathMsg = 1 := by
  have main : ∀ h : FileInfo,
      (file_health_checks h).countP isLongPathMsg = (rel_len_check h).countP isLongPathMsg := by
    intro h
    rw [health_decomp]
    simp only [List.countP_append, countP_long_depth, countP_long_name_len, countP_long_ascii,
      countP_long_badchar, countP_long_strip, countP_long_dbl, countP_long_stat]
    omega
  constructor
  · rw [main f]
    unfold rel_len_check
    rw [hf]
    norm_num [REL_PATH_LEN_LIMIT]
  · rw [main g]
    unfold rel_len_check
    rw [hg]
    norm_num [REL_PATH_LEN_LIMIT, List.countP_cons, long_pre]

set_option maxRecDepth 4000 in
/-- Witness for C7: single path components of 180 and 181 characters. -/
theorem C7_witness :
    (file_health_checks ⟨[String.mk (List.replicate 180 'a')], some 1⟩).countP isLongPathMsg = 0
    ∧ (file_health_checks ⟨[String.mk (List.replicate 181 'a')], some 1⟩).countP isLongPathMsg = 1 :=
  C7_path_length_boundary _ _ (by decide) (by decide)

/-- C8: a failed stat is recorded as the could-not-stat finding (the
checker still returns a list, it does not propagate the failure), and a
zero-byte size is recorded as the zero-byte finding. -/
theorem C8_stat_failure (f g : FileInfo)
    (hf : f.statSize = none) (hg : g.statSize = some 0) :
    "could not stat file (permissions/corruption)" ∈ file_health_checks f
    ∧ "zero-byte file" ∈ file_health_checks g := by
  constructor
  · rw [health_split]
    refine List.mem_append_right _ ?_
    simp [stat_check, hf]
  · rw [health_split]
    refine List.mem_append_right _ ?_
    simp [stat_check, hg]

/-- Witness for C8: concrete files with a failed stat and a zero size. -/
theorem C8_witness :
    "could not stat file (permissions/corruption)" ∈ file_health_checks ⟨["x.mp3"], none⟩
    ∧ "zero-byte file" ∈ file_health_checks ⟨["x.mp3"], some 0⟩ :=
  C8_stat_failure _ _ rfl rfl

lemma mem_ite_singleton {c : Prop} [Decidable c] {r m : String}
    (h : r ∈ if c then [m] else []) : r = m := by
  split at h
  · simpa using h
  · simp at h

lemma zero_not_mem_pre (f : FileInfo) : "zero-byte file" ∉ pre_checks f := by
  intro h
  simp only [pre_checks, List.mem_append] at h
  rcases h with ((((((h | h) | h) | h) | h) | h) | h)
  · unfold depth_check at h
    exact str_append_ne _ _ _ 'd' 'z' "eep folder nesting (depth=".data "ero-byte file".data
      rfl rfl (by decide) (mem_ite_singleton h).symm
  · unfold rel_len_check at h
    exact str_append_ne _ _ _ 'l' 'z' "ong relative path (".data "ero-byte file".data
      rfl rfl (by decide) (mem_ite_singleton h).symm
  · unfold name_len_check at h
    exact str_append_ne _ _ _ 'v' 'z' "ery long filename (".data "ero-byte file".data
      rfl rfl (by decide) (mem_ite_singleton h).symm
  · unfold ascii_check at h
    exact absurd (mem_ite_singleton h) (by decide)
  · unfold badchar_check at h
    exact absurd (mem_ite_singleton h) (by decide)
  · unfold strip_check at h
    exact absurd (mem_ite_singleton h) (by decide)
  · unfold dblspace_check at h
    exact absurd (mem_ite_singleton h) (by decide)

lemma stat_not_mem_pre (f : FileInfo) :
    "could not stat file (permissions/corruption)" ∉ pre_checks f := by
  intro h
  simp only [pre_checks, List.mem_append] at h
  rcases h with ((((((h | h) | h) | h) | h) | h) | h)
  · unfold depth_check at h
    exact str_append_ne _ _ _ 'd' 'c' "eep folder nesting (depth=".data
      "ould not stat file (permissions/corruption)".data rfl rfl (by decide)
      (mem_ite_singleton h).symm
  · unfold rel_len_check at h
    exact str_append_ne _ _ _ 'l' 'c' "ong relative path (".data
      "ould not stat file (permissions/corruption)".data rfl rfl (by decide)
      (mem_ite_singleton h).symm
  · unfold name_len_check at h
    exact str_append_ne _ _ _ 'v' 'c' "ery long filename (".data
      "ould not stat file (permissions/corruption)".data rfl rfl (by decide)
      (mem_ite_singleton h).symm
  · unfold ascii_check at h
    exact absurd (mem_ite_singleton h) (by decide)
  · unfold badchar_check at h
    exact absurd (mem_ite_singleton h) (by decide)
  · unfold strip_check at h
    exact absurd (mem_ite_singleton h) (by decide)
  · unfold dblspace_check at h
    exact absurd (mem_ite_singleton h) (by decide)

/-- C9: the health checker returns at most 8 findings, each individual
check contributes at most one, and the zero-byte and stat-failure
findings exclude each other — whichever appears is the last element. -/
theorem C9_health_bounds (f : FileInfo) :
    (file_health_checks f).length ≤ 8
    ∧ (depth_check f).length ≤ 1 ∧ (rel_len_check f).length ≤ 1
    ∧ (name_len_check f).length ≤ 1 ∧ (ascii_check f).length ≤ 1
    ∧ (badchar_check f).length ≤ 1 ∧ (strip_check f).length ≤ 1
    ∧ (dblspace_check f).length ≤ 1 ∧ (stat_check f).length ≤ 1
    ∧ ¬("zero-byte file" ∈ file_health_checks f
        ∧ "could not stat file (permissions/corruption)" ∈ file_health_checks f)
    ∧ ("zero-byte file" ∈ file_health_checks f →
        (file_health_checks f).getLast? = some "zero-byte file")
    ∧ ("could not stat file (permissions/corruption)" ∈ file_health_checks f →
        (file_health_checks f).getLast? = some "could not stat file (permissions/corruption)") := by
  have h1 : (depth_check f).length ≤ 1 := by unfold depth_check; split <;> simp
  have h2 : (rel_len_check f).length ≤ 1 := by unfold rel_len_check; split <;> simp
  have h3 : (name_len_check f).length ≤ 1 := by unfold name_len_check; split <;> simp
  have h4 : (ascii_check f).length ≤ 1 := by unfold ascii_check; split <;> simp
  have h5 : (badchar_check f).length ≤ 1 := by unfold badchar_check; split <;> simp
  have h6 : (strip_check f).length ≤ 1 := by unfold strip_check; split <;> simp
  have h7 : (dblspace_check f).length ≤ 1 := by unfold dblspace_check; split <;> simp
  have h8 : (stat_check f).length ≤ 1 := by
    rcases hn : f.statSize with _ | n
    · rw [stat_check_none f hn]
      simp
    · by_cases h0 : n = 0
      · rw [h0] at hn
        rw [stat_check_zero f hn]
        simp
      · rw [stat_check_pos f n h0 hn]
        simp
  have hlen : (file_health_checks f).length ≤ 8 := by
    rw [health_decomp]
    simp only [List.length_append]
    omega
  have hznp := zero_not_mem_pre f
  have hsnp := stat_not_mem_pre f
  refine ⟨hlen, h1, h2, h3, h4, h5, h6, h7, h8, ?_, ?_, ?_⟩
  · rintro ⟨hz1, hs1⟩
    rw [health_split] at hz1 hs1
    rcases hn : f.statSize with _ | n
    · rw [stat_check_none f hn] at hz1
      rcases List.mem_append.1 hz1 with h | h
      · exact hznp h
      · simp at h
    · by_cases h0 : n = 0
      · rw [h0] at hn
        rw [stat_check_zero f hn] at hs1
        rcases List.mem_append.1 hs1 with h | h
        · exact hsnp h
        · simp at h
      · rw [stat_check_pos f n h0 hn, List.append_nil] at hz1
        exact hznp hz1
  · intro hz1
    rw [health_split] at hz1 ⊢
    rcases hn : f.statSize with _ | n
    · exfalso
      rw [stat_check_none f hn] at hz1
      rcases List.mem_append.1 hz1 with h | h
      · exact hznp h
      · simp at h
    · by_cases h0 : n = 0
      · rw [h0] at hn
        rw [stat_check_zero f hn]
        exact List.getLast?_concat _
      · exfalso
        rw [stat_check_pos f n h0 hn, List.append_nil] at hz1
        exact hznp hz1
  · intro hs1
    rw [health_split] at hs1 ⊢
    rcases hn : f.statSize with _ | n
    · rw [stat_check_none f hn]
      exact List.getLast?_concat _
    · exfalso
      by_cases h0 : n = 0
      · rw [h0] at hn
        rw [stat_check_zero f hn] at hs1
        rcases List.mem_append.1 hs1 with h | h
        · exact hsnp h
        · simp at h
      · rw [stat_check_pos f n h0 hn, List.append_nil] at hs1
        exact hsnp hs1

lemma lastDotIdx_eq_none (l : List Char) (h : '.' ∉ l) : lastDotIdx l = none := by
  induction l with
  | nil => rfl
  | cons c cs ih =>
    have hc : ¬ c = '.' := fun e => h (by rw [← e]; exact List.mem_cons_self c cs)
    have hcs : '.' ∉ cs := fun m => h (List.mem_cons_of_mem c m)
    simp [lastDotIdx, ih hcs, hc]

/-- C10: a name that is a single leading dot with no further dot (such
as `.flac` or `.nomedia`) has an empty pathlib suffix, so no
extension-based rule can match: unless the AppleDouble prefix rule or
the junk-filename set catches it, it is classified unknown with the
no-extension reason. -/
theorem C10_leading_dot_unknown (name : String)
    (h1 : name.data.head? = some '.')
    (h2 : '.' ∉ name.data.tail) :
    pySuffix name = ""
    ∧ (pyStartswith name APPLEDOUBLE_PREFIX = false → pyLower name ∉ JUNK_FILENAMES →
        classify_file name = ("unknown", "unknown file type (no extension)")) := by
  obtain ⟨t, hnd⟩ : ∃ t, name.data = '.' :: t := by
    cases hd : name.data with
    | nil => rw [hd] at h1; simp at h1
    | cons c cs =>
      rw [hd] at h1
      simp at h1
      exact ⟨cs, by rw [h1]⟩
  have ht : '.' ∉ t := by
    have he : name.data.tail = t := by rw [hnd]; rfl
    rwa [he] at h2
  have hsuf : pySuffix name = "" := by
    unfold pySuffix
    rw [hnd]
    simp [lastDotIdx, lastDotIdx_eq_none t ht]
  refine ⟨hsuf, fun hp hj => ?_⟩
  have hp' : ¬ pyStartswith name APPLEDOUBLE_PREFIX = true := by simp [hp]
  simp only [classify_file, hsuf]
  rw [if_neg hp', if_neg hj, if_neg (by decide), if_neg (by decide), if_neg (by decide),
    if_neg (by decide)]
  decide

/-- Witness for C10: the bare `.flac` name. -/
theorem C10_witness :
    pySuffix ".flac" = ""
    ∧ (pyStartswith ".flac" APPLEDOUBLE_PREFIX = false → pyLower ".flac" ∉ JUNK_FILENAMES →
        classify_file ".flac" = ("unknown", "unknown file type (no extension)")) :=
  C10_leading_dot_unknown ".flac" (by decide) (by decide)

end DapCleaner
